import Mathlib

/-!
Verification of `env_utils.py` (environment-setup checker).

The file shallowly embeds the reconciliation core of the program:
  * `summarize_value`  — the value masker (`summarize_value` in the source);
  * `check_env_conflicts` — the `.env` / process-environment conflict detector;
  * `manifestStep` / `doublecheck_env_parse` — the manifest (example.env) parse loop
    inside `doublecheck_env`;
  * `reconEntry` / `reconIssues` — the per-key reconciliation loop of `doublecheck_env`;
  * `langsmithCheck` — the LangSmith cross-field rule of `doublecheck_env`;
  * `auditDep` / `auditPkgs` — the dependency audit of `doublecheck_pkgs`.

External collaborators (the `dotenv` parser, `importlib.metadata`, the `packaging`
requirement/specifier machinery, `os.environ`) are passed in as function parameters,
exactly at the boundary where the Python code calls them.

Python string primitives (`lower`, `endswith`, `startswith`, `strip`, slicing,
membership) are modelled structurally on the character list of the string, so
that every definition evaluates inside the kernel.
-/

namespace EnvUtils

/-- Python's `s.lower()` (character-wise lowercasing). -/
def strLower (s : String) : String := ⟨s.data.map Char.toLower⟩

/-- Python's `s.endswith(suffix)`. -/
def strEndsWith (s suffix : String) : Bool := List.isSuffixOf suffix.data s.data

/-- Python's `s.startswith(pre)`. -/
def strStartsWith (s pre : String) : Bool := List.isPrefixOf pre.data s.data

/-- Python's `len(s)`. -/
def strLen (s : String) : Nat := s.data.length

/-- Python's `s[-n:]` for `0 < n ≤ len(s)`: the last `n` characters. -/
def strTakeRight (s : String) (n : Nat) : String := ⟨s.data.drop (s.data.length - n)⟩

/-- Python's `s.strip()` (remove leading and trailing whitespace). -/
def strTrim (s : String) : String :=
  ⟨((s.data.dropWhile Char.isWhitespace).reverse.dropWhile Char.isWhitespace).reverse⟩

/-- Substring occurrence on character lists: `listIsSubstr pat s` is `true` iff
`pat` occurs contiguously in `s`. -/
def listIsSubstr (pat : List Char) : List Char → Bool
  | [] => pat.isEmpty
  | c :: cs => pat.isPrefixOf (c :: cs) || listIsSubstr pat cs

/-- Python's `pat in s` for strings. -/
def strContains (s pat : String) : Bool :=
  listIsSubstr pat.data s.data

/-- Python's `s[1:-1]` (drop the first and last character). -/
def strDropEnds (s : String) : String := ⟨(s.data.drop 1).dropLast⟩

/-- Python truthiness combined with equality, as in the source's
`if example_value and value == example_value`: `None` and `""` are falsy. -/
def placeholderHit (example_value : Option String) (value : String) : Bool :=
  match example_value with
  | none => false
  | some e => if e = "" then false else decide (value = e)

/-- `summarize_value` from `env_utils.py` (the ValueMasker).

```
lower = value.lower()
if lower in ("true", "false"): return lower
is_api_key = key.endswith("API_KEY")
if not is_api_key: return value
if example_value and value == example_value: return value
return "****" + value[-4:] if len(value) > 4 else "****" + value
```
-/
def summarize_value (key value : String) (example_value : Option String) : String :=
  if strLower value = "true" ∨ strLower value = "false" then strLower value
  else if strEndsWith key "API_KEY" = false then value
  else if placeholderHit example_value value = true then value
  else if strLen value > 4 then "****" ++ strTakeRight value 4 else "****" ++ value

/-- A conflict between the process environment and the `.env` file, as collected
by `check_env_conflicts` in `env_utils.py`. -/
structure Conflict where
  key : String
  system_value : String
  file_value : String
deriving DecidableEq

/-- The conflict-collection loop of `check_env_conflicts` in `env_utils.py`:

```
for key, file_value in env_file_vars.items():
    sys_value = os.environ.get(key)
    if sys_value is not None and sys_value != file_value:
        conflicts.append({'key': key, 'system_value': sys_value, 'file_value': file_value})
```

`env_file_vars` is the key/value list produced by the external `dotenv_values`
parser on the `.env` file; `environ` is the process environment. -/
def check_env_conflicts (env_file_vars : List (String × String))
    (environ : String → Option String) : List Conflict :=
  env_file_vars.filterMap fun kv =>
    match environ kv.1 with
    | some sys_value => if sys_value ≠ kv.2 then some ⟨kv.1, sys_value, kv.2⟩ else none
    | none => none

/-- The three LangSmith cross-field issues of `doublecheck_env`. -/
inductive LangsmithIssue
  | tracingEnabledKeyNotSet
  | tracingEnabledKeyPlaceholder
  | keySetTracingDisabled
deriving DecidableEq

/-- The LangSmith cross-field rule at the end of `doublecheck_env`:

```
langsmith_tracing = os.getenv("LANGSMITH_TRACING", "").lower()
langsmith_api_key = os.getenv("LANGSMITH_API_KEY", "")
langsmith_example = all_example_values.get("LANGSMITH_API_KEY", "")
if langsmith_tracing == "true":
    if not langsmith_api_key: issues.append(... not set ...)
    elif langsmith_api_key == langsmith_example: issues.append(... placeholder ...)
    else: ... success, no issue ...
elif langsmith_api_key and langsmith_api_key != langsmith_example:
    issues.append(... set but tracing disabled ...)
```
-/
def langsmithCheck (environ all_example_values : String → Option String) :
    Option LangsmithIssue :=
  let t := strLower ((environ "LANGSMITH_TRACING").getD "")
  let k := (environ "LANGSMITH_API_KEY").getD ""
  let e := (all_example_values "LANGSMITH_API_KEY").getD ""
  if t = "true" then
    if k = "" then some .tracingEnabledKeyNotSet
    else if k = e then some .tracingEnabledKeyPlaceholder
    else none
  else if k ≠ "" ∧ k ≠ e then some .keySetTracingDisabled
  else none

/-- Process environment with `LANGSMITH_TRACING=true` and no other variable. -/
def langsmithTracingOnlyEnv : String → Option String :=
  fun k => if k = "LANGSMITH_TRACING" then some "true" else none

/-- Manifest example values with no `LANGSMITH_API_KEY` entry. -/
def langsmithNoExamples : String → Option String := fun _ => none

/-- Process environment with tracing enabled and a real (non-example) key. -/
def langsmithFullEnv : String → Option String :=
  fun k => if k = "LANGSMITH_TRACING" then some "true"
           else if k = "LANGSMITH_API_KEY" then some "ls-real-key" else none

/-- Process environment with only `LANGSMITH_API_KEY` set (tracing absent). -/
def langsmithKeyOnlyEnv : String → Option String :=
  fun k => if k = "LANGSMITH_API_KEY" then some "ls-real-key" else none

/-- Manifest example values declaring a placeholder `LANGSMITH_API_KEY`. -/
def langsmithExampleVals : String → Option String :=
  fun k => if k = "LANGSMITH_API_KEY" then some "ls-example" else none

/-- Python dict assignment `m[k] = v` on a string-keyed map. -/
def updateMap (m : String → Option String) (k v : String) : String → Option String :=
  fun x => if x = k then some v else m x

/-- The quote-stripping step of the manifest parse in `doublecheck_env`:

```
if value.startswith("'") and value.endswith("'"): value = value[1:-1]
elif value.startswith('"') and value.endswith('"'): value = value[1:-1]
```
-/
def stripQuotes (value : String) : String :=
  if strStartsWith value "'" = true ∧ strEndsWith value "'" = true then strDropEnds value
  else if strStartsWith value "\"" = true ∧ strEndsWith value "\"" = true then strDropEnds value
  else value

/-- `stripped.split('=')[0].strip()`: the part before the first `=`, trimmed. -/
def lineKey (stripped : String) : String :=
  strTrim ⟨stripped.data.takeWhile (fun c => ¬(c = '='))⟩

/-- `stripped.split('=', 1)[1].strip()` followed by quote stripping: the part
after the first `=`, trimmed, with one layer of matching quotes removed. -/
def lineValue (stripped : String) : String :=
  stripQuotes (strTrim ⟨(stripped.data.dropWhile (fun c => ¬(c = '='))).drop 1⟩)

/-- The mutable state of the manifest parse loop in `doublecheck_env`:
the `is_required_section` flag and the two dicts being filled. -/
structure ManifestState where
  is_required_section : Bool
  all_example_values : String → Option String
  required_keys : String → Option String

/-- One iteration of the manifest parse loop of `doublecheck_env`:

```
stripped = line.strip()
if stripped.startswith('#'):
    if 'required' in stripped.lower(): is_required_section = True
    else: is_required_section = False
elif '=' in stripped and not stripped.startswith('#'):
    key = stripped.split('=')[0].strip()
    value = stripped.split('=', 1)[1].strip()
    ... strip quotes ...
    all_example_values[key] = value
    if is_required_section: required_keys[key] = value
```
-/
def manifestStep (s : ManifestState) (line : String) : ManifestState :=
  let stripped := strTrim line
  if strStartsWith stripped "#" = true then
    if strContains (strLower stripped) "required" = true then
      { s with is_required_section := true }
    else
      { s with is_required_section := false }
  else if strContains stripped "=" = true then
    { s with
      all_example_values := updateMap s.all_example_values (lineKey stripped) (lineValue stripped),
      required_keys :=
        if s.is_required_section = true then
          updateMap s.required_keys (lineKey stripped) (lineValue stripped)
        else s.required_keys }
  else s

/-- The whole manifest parse of `doublecheck_env`: fold the line scan over the
file's lines starting from the initial state (flag down, both dicts empty). -/
def doublecheck_env_parse (lines : List String) : ManifestState :=
  lines.foldl manifestStep ⟨false, fun _ => none, fun _ => none⟩

/-- The two per-key issues of the reconciliation loop in `doublecheck_env`. -/
inductive ReconIssue
  | missingRequired
  | stillPlaceholder
deriving DecidableEq

/-- What the reconciliation loop computes for one key: the displayed string and
the optional issue. -/
structure ReconEntry where
  display : String
  issue : Option ReconIssue
deriving DecidableEq

/-- The body of the per-key reconciliation loop of `doublecheck_env`:

```
current = os.getenv(key)
example_val = all_example_values.get(key)
if current is not None:
    print(f"{key}={summarize_value(key, current, example_val)}")
    if key in required_keys:
        if current == example_val: issues.append(... still has placeholder ...)
else:
    print(f"{key}=<not set>")
    if key in required_keys: issues.append(... required but not set ...)
```

(`current == example_val` compares a string with an `Optional[str]`, so it is
`example_val = some current`.) -/
def reconEntry (environ required_keys all_example_values : String → Option String)
    (key : String) : ReconEntry :=
  match environ key with
  | some current =>
    { display := summarize_value key current (all_example_values key)
      issue :=
        if required_keys key ≠ none ∧ all_example_values key = some current then
          some ReconIssue.stillPlaceholder
        else none }
  | none =>
    { display := "<not set>"
      issue := if required_keys key ≠ none then some ReconIssue.missingRequired else none }

/-- The per-key issues collected by the reconciliation loop of `doublecheck_env`,
in manifest order.  `parsedKeys` is the key list the external `dotenv_values`
parser returns for the example file (the loop iterates over `parsed.keys()`). -/
def reconIssues (parsedKeys : List String)
    (environ required_keys all_example_values : String → Option String) :
    List (String × ReconIssue) :=
  parsedKeys.filterMap fun k =>
    match (reconEntry environ required_keys all_example_values k).issue with
    | some i => some (k, i)
    | none => none

/-- The everywhere-empty environment map. -/
def emptyEnvMap : String → Option String := fun _ => none

/-- Manifest parse state with the required flag down and empty dicts. -/
def mState0 : ManifestState := ⟨false, emptyEnvMap, emptyEnvMap⟩

/-- Manifest parse state with the required flag up and empty dicts. -/
def mState1 : ManifestState := ⟨true, emptyEnvMap, emptyEnvMap⟩

/-- A map declaring only `OPENAI_API_KEY` with example value `sk-example`. -/
def reqOpenAI : String → Option String :=
  fun k => if k = "OPENAI_API_KEY" then some "sk-example" else none

/-- Greedy `\d+`-style scan: split a character list into its maximal digit
prefix and the rest. -/
def takeDigits : List Char → List Char × List Char
  | [] => ([], [])
  | c :: cs =>
    if c.isDigit then
      let p := takeDigits cs
      (c :: p.1, p.2)
    else ([], c :: cs)

/-- After the literal `python` has matched, try to match `\d+\.\d+` greedily;
on success return the whole matched tag and the remaining characters. -/
def matchPyTagBody (r : List Char) : Option (List Char × List Char) :=
  let p1 := takeDigits r
  if p1.1.isEmpty then none
  else
    match p1.2 with
    | '.' :: r2 =>
      let p2 := takeDigits r2
      if p2.1.isEmpty then none
      else some ("python".data ++ p1.1 ++ '.' :: p2.1, p2.2)
    | _ => none

/-- Try to match the regex `python\d+\.\d+` at the head of the list. -/
def matchPyTag (cs : List Char) : Option (List Char × List Char) :=
  if List.isPrefixOf "python".data cs then matchPyTagBody (cs.drop 6) else none

/-- Left-to-right non-overlapping scan of `re.findall`, fuelled: on a match,
continue after the matched text, otherwise advance one character.  Every step
consumes at least one character, so fuel equal to the list length makes the
scan exact. -/
def findTagsAux : Nat → List Char → List (List Char)
  | 0, _ => []
  | _ + 1, [] => []
  | n + 1, c :: cs =>
    match matchPyTag (c :: cs) with
    | some p => p.1 :: findTagsAux n p.2
    | none => findTagsAux n cs

/-- `re.findall(r'python\d+\.\d+', s)` from `doublecheck_pkgs`. -/
def pyTags (s : String) : List String :=
  (findTagsAux s.data.length s.data).map fun l => ⟨l⟩

/-- One row of the dependency audit of `doublecheck_pkgs`, mirroring the Python
dict `{"package", "required", "installed", "path", "status"}` with the literal
status strings of the source. -/
structure DepRecord where
  package : String
  required : String
  installed : String
  path : String
  status : String
deriving DecidableEq

/-- Python's `any(op in spec for op in "<>=")`: the specifier string mentions a
comparison character. -/
def specHasOp (spec : String) : Bool :=
  spec.data.any fun c => c == '<' || c == '>' || c == '='

/-- One iteration of the dependency loop of `doublecheck_pkgs`.

Collaborators: `parseReq` is `packaging.requirements.Requirement` (returning the
requirement name and its optional specifier string, `none` on parse failure);
`metaVer` is `importlib.metadata.version` (`none` when it raises
`PackageNotFoundError`); `metaPath` is the `dist.locate_file("")` lookup
(`none` when it raises, giving `"(unknown)"`); `specSat` is the
`Version(installed) in SpecifierSet(spec)` test; `expectedPy` is
`f"python{sys.version_info.major}.{sys.version_info.minor}"`.

```
try:
    req = Requirement(dep); name = req.name
    spec = str(req.specifier) if req.specifier else "(any)"
except Exception:
    name, spec = dep, "(unparsed)"
rec = {...name, spec, "-", "-", "❌ Missing"...}
try:
    installed_ver = metadata.version(name); ... path ...
    path_str = str(rec["path"]).lower()
    wrong_version = False
    if "python" in path_str and rec["path"] != "(unknown)":
        py_versions_in_path = re.findall(r'python\d+\.\d+', path_str)
        if py_versions_in_path:
            if expected_py_version.lower() not in py_versions_in_path:
                wrong_version = True; rec["status"] = "⚠️ Wrong Python version"
    if not wrong_version:
        if spec not in ("(any)", "(unparsed)") and any(op in spec for op in "<>="):
            rec["status"] = "✅ OK" if Version(installed_ver) in SpecifierSet(spec)
                            else "⚠️ Version mismatch"
        else: rec["status"] = "✅ OK"
except metadata.PackageNotFoundError: pass
```
-/
def auditDep (parseReq : String → Option (String × Option String))
    (metaVer metaPath : String → Option String)
    (specSat : String → String → Bool)
    (expectedPy : String) (dep : String) : DepRecord :=
  let np : String × String :=
    match parseReq dep with
    | some (n, sp) => (n, match sp with | some sp2 => sp2 | none => "(any)")
    | none => (dep, "(unparsed)")
  match metaVer np.1 with
  | none => ⟨np.1, np.2, "-", "-", "❌ Missing"⟩
  | some ver =>
    let path := match metaPath np.1 with | some p => p | none => "(unknown)"
    let pathStr := strLower path
    let tags := pyTags pathStr
    let status :=
      if strContains pathStr "python" = true ∧ path ≠ "(unknown)" ∧ tags ≠ [] ∧
          strLower expectedPy ∉ tags then
        "⚠️ Wrong Python version"
      else if (np.2 ≠ "(any)" ∧ np.2 ≠ "(unparsed)") ∧ specHasOp np.2 = true then
        if specSat np.2 ver = true then "✅ OK" else "⚠️ Version mismatch"
      else "✅ OK"
    ⟨np.1, np.2, ver, path, status⟩

/-- The whole dependency audit of `doublecheck_pkgs`: one record per declared
dependency string, in order. -/
def auditPkgs (parseReq : String → Option (String × Option String))
    (metaVer metaPath : String → Option String)
    (specSat : String → String → Bool)
    (expectedPy : String) (deps : List String) : List DepRecord :=
  deps.map (auditDep parseReq metaVer metaPath specSat expectedPy)

/-- A requirement parser that fails on every string. -/
def noParse : String → Option (String × Option String) := fun _ => none

/-- Installed-package metadata with no package installed. -/
def noMeta : String → Option String := fun _ => none

/-- A specifier test that always succeeds. -/
def anySat : String → String → Bool := fun _ _ => true

/-- Requirement parser knowing only `requests>=2.0`. -/
def reqParse : String → Option (String × Option String) :=
  fun d => if d = "requests>=2.0" then some ("requests", some ">=2.0") else none

/-- Metadata: `requests` is installed at version `2.5`. -/
def reqVer : String → Option String :=
  fun n => if n = "requests" then some "2.5" else none

/-- Metadata: `requests` resolves under a `python3.11` site-packages path. -/
def reqPath : String → Option String :=
  fun n => if n = "requests" then some "/venv/lib/python3.11/site-packages" else none

end EnvUtils

namespace EnvUtils

theorem placeholderHit_false_of_ne (ex : Option String) (value : String)
    (h : ex ≠ some value) : placeholderHit ex value = false := by
  cases ex with
  | none => rfl
  | some e =>
    simp only [placeholderHit]
    by_cases he : e = ""
    · simp [he]
    · simp only [he, if_false]
      have : value ≠ e := fun hv => h (by rw [hv])
      simp [this]

theorem summarize_masked (key value : String) (ex : Option String)
    (hk : strEndsWith key "API_KEY" = true)
    (ht : strLower value ≠ "true") (hf : strLower value ≠ "false")
    (hp : placeholderHit ex value = false) :
    summarize_value key value ex =
      (if strLen value > 4 then "****" ++ strTakeRight value 4 else "****" ++ value) := by
  simp only [summarize_value]
  rw [if_neg (by rintro (h | h) <;> [exact ht h; exact hf h])]
  rw [if_neg (by simp [hk])]
  rw [if_neg (by simp [hp])]

/-- C5: for a key whose name ends in `API_KEY`, a value different from the example
value, not a boolean string, and longer than 4 characters, `summarize_value`
returns exactly `****` followed by the last 4 characters of the value; moreover the
output depends only on those last 4 characters, so no earlier character of the
value can appear in it. -/
theorem mask_long_value (key value : String) (ex : Option String)
    (hk : strEndsWith key "API_KEY" = true)
    (ht : strLower value ≠ "true") (hf : strLower value ≠ "false")
    (hex : ex ≠ some value)
    (hlen : strLen value > 4) :
    summarize_value key value ex = "****" ++ strTakeRight value 4 ∧
    ∀ (w : String) (ew : Option String), strLower w ≠ "true" → strLower w ≠ "false" →
      ew ≠ some w → strLen w > 4 → strTakeRight w 4 = strTakeRight value 4 →
      summarize_value key w ew = summarize_value key value ex := by
  have hmain : summarize_value key value ex = "****" ++ strTakeRight value 4 := by
    rw [summarize_masked key value ex hk ht hf (placeholderHit_false_of_ne ex value hex)]
    rw [if_pos hlen]
  refine ⟨hmain, ?_⟩
  intro w ew ht' hf' hex' hlen' hsuf
  rw [summarize_masked key w ew hk ht' hf' (placeholderHit_false_of_ne ew w hex')]
  rw [if_pos hlen', hsuf, hmain]

theorem mask_long_value_witness :
    (strEndsWith "OPENAI_API_KEY" "API_KEY" = true) ∧
    (strLower "sk-secret123" ≠ "true") ∧ (strLower "sk-secret123" ≠ "false") ∧
    ((some "sk-example" : Option String) ≠ some "sk-secret123") ∧
    (strLen "sk-secret123" > 4) ∧
    summarize_value "OPENAI_API_KEY" "sk-secret123" (some "sk-example") =
      "****" ++ strTakeRight "sk-secret123" 4 :=
  ⟨by decide, by decide, by decide, by decide, by decide,
    (mask_long_value "OPENAI_API_KEY" "sk-secret123" (some "sk-example")
      (by decide) (by decide) (by decide) (by decide) (by decide)).1⟩

/-- C8: for a key whose name ends in `API_KEY`, a value different from the example
value, not a boolean string, and of length at most 4, `summarize_value` returns
`****` followed by the whole value unchanged. -/
theorem mask_short_value (key value : String) (ex : Option String)
    (hk : strEndsWith key "API_KEY" = true)
    (ht : strLower value ≠ "true") (hf : strLower value ≠ "false")
    (hex : ex ≠ some value)
    (hlen : strLen value ≤ 4) :
    summarize_value key value ex = "****" ++ value := by
  rw [summarize_masked key value ex hk ht hf (placeholderHit_false_of_ne ex value hex)]
  rw [if_neg (by omega)]

theorem mask_short_value_witness :
    (strEndsWith "OPENAI_API_KEY" "API_KEY" = true) ∧
    (strLower "ab12" ≠ "true") ∧ (strLower "ab12" ≠ "false") ∧
    ((some "sk-example" : Option String) ≠ some "ab12") ∧
    (strLen "ab12" ≤ 4) ∧
    summarize_value "OPENAI_API_KEY" "ab12" (some "sk-example") = "****" ++ "ab12" :=
  ⟨by decide, by decide, by decide, by decide, by decide,
    mask_short_value "OPENAI_API_KEY" "ab12" (some "sk-example")
      (by decide) (by decide) (by decide) (by decide) (by decide)⟩

/-- C9: a value that lowercases to `"true"` or `"false"` is returned lowercased
verbatim by `summarize_value`, whatever the key name and the example value. -/
theorem mask_boolean_value (key value : String) (ex : Option String)
    (h : strLower value = "true" ∨ strLower value = "false") :
    summarize_value key value ex = strLower value := by
  simp only [summarize_value]
  rw [if_pos h]

theorem mask_boolean_value_witness :
    (strLower "TRUE" = "true" ∨ strLower "TRUE" = "false") ∧
    summarize_value "LANGSMITH_API_KEY" "TRUE" (some "TRUE") = strLower "TRUE" :=
  ⟨by decide, mask_boolean_value "LANGSMITH_API_KEY" "TRUE" (some "TRUE") (by decide)⟩

/-- C10: `summarize_value` treats an empty-string example value like an absent
one (Python truthiness): for a key ending in `API_KEY` and a non-boolean value,
the placeholder-equality branch is skipped and the masked form is returned, so in
particular `summarize_value name "" (some "")` is `"****"`, not the value. -/
theorem mask_empty_example (key value : String)
    (hk : strEndsWith key "API_KEY" = true)
    (ht : strLower value ≠ "true") (hf : strLower value ≠ "false") :
    summarize_value key value (some "") = summarize_value key value none ∧
    summarize_value key value (some "") =
      (if strLen value > 4 then "****" ++ strTakeRight value 4 else "****" ++ value) := by
  have h1 : summarize_value key value (some "") =
      (if strLen value > 4 then "****" ++ strTakeRight value 4 else "****" ++ value) :=
    summarize_masked key value (some "") hk ht hf rfl
  have h2 : summarize_value key value none =
      (if strLen value > 4 then "****" ++ strTakeRight value 4 else "****" ++ value) :=
    summarize_masked key value none hk ht hf rfl
  exact ⟨h1.trans h2.symm, h1⟩

theorem mask_empty_example_witness :
    summarize_value "OPENAI_API_KEY" "" (some "") = summarize_value "OPENAI_API_KEY" "" none ∧
    summarize_value "OPENAI_API_KEY" "" (some "") = "****" :=
  ⟨(mask_empty_example "OPENAI_API_KEY" "" (by decide) (by decide) (by decide)).1,
    ((mask_empty_example "OPENAI_API_KEY" "" (by decide) (by decide) (by decide)).2).trans
      (by decide)⟩

/-- C3: `check_env_conflicts` emits a `Conflict {key, system_value, file_value}`
exactly for the keys declared in the `.env` file that the process environment
also defines with a different value; for a file declaring `FOO=bar` and a process
environment with `FOO=baz` it returns exactly one conflict
`{key := FOO, system_value := baz, file_value := bar}`, and none when the process
environment does not define `FOO`. -/
theorem detect_conflicts_spec (env_file_vars : List (String × String))
    (environ : String → Option String) :
    (∀ c : Conflict, c ∈ check_env_conflicts env_file_vars environ ↔
      ((c.key, c.file_value) ∈ env_file_vars ∧ environ c.key = some c.system_value ∧
        c.system_value ≠ c.file_value)) ∧
    (environ "FOO" = some "baz" →
      check_env_conflicts [("FOO", "bar")] environ = [⟨"FOO", "baz", "bar"⟩]) ∧
    (environ "FOO" = none → check_env_conflicts [("FOO", "bar")] environ = []) := by
  refine ⟨?_, ?_, ?_⟩
  · intro c
    simp only [check_env_conflicts, List.mem_filterMap]
    constructor
    · rintro ⟨⟨k, fv⟩, hmem, hf⟩
      rcases he : environ k with _ | sv <;> rw [he] at hf <;> dsimp only at hf
      · exact absurd hf (by simp)
      · by_cases hne : sv ≠ fv
        · rw [if_pos hne] at hf
          have hc := Option.some.inj hf
          subst hc
          exact ⟨hmem, he, hne⟩
        · rw [if_neg hne] at hf
          exact absurd hf (by simp)
    · rintro ⟨hmem, he, hne⟩
      refine ⟨(c.key, c.file_value), hmem, ?_⟩
      rw [he]
      dsimp only
      rw [if_pos hne]
  · intro h
    simp only [check_env_conflicts, List.filterMap_cons, h]
    rw [if_pos (by decide)]
    rfl
  · intro h
    simp only [check_env_conflicts, List.filterMap_cons, h]
    rfl

theorem detect_conflicts_spec_witness :
    check_env_conflicts [("FOO", "bar")]
        (fun k => if k = "FOO" then some "baz" else none) =
      [⟨"FOO", "baz", "bar"⟩] ∧
    check_env_conflicts [("FOO", "bar")] (fun _ => none) = [] :=
  ⟨(detect_conflicts_spec [("FOO", "bar")]
      (fun k => if k = "FOO" then some "baz" else none)).2.1 (by decide),
   (detect_conflicts_spec [("FOO", "bar")] (fun _ => none)).2.2 rfl⟩

/-- C2 counterexample: with `LANGSMITH_TRACING=true`, `LANGSMITH_API_KEY` absent
(so `K = ""`) and no example value (so `E = ""`), we have `T = "true"` and
`K = E`, yet the code reports `keyNotSet`, not the claimed `placeholder` issue:
the `K` empty check runs first. -/
theorem langsmith_placeholder_counterexample :
    strLower ((langsmithTracingOnlyEnv "LANGSMITH_TRACING").getD "") = "true" ∧
    (langsmithTracingOnlyEnv "LANGSMITH_API_KEY").getD "" =
      (langsmithNoExamples "LANGSMITH_API_KEY").getD "" ∧
    langsmithCheck langsmithTracingOnlyEnv langsmithNoExamples ≠
      some LangsmithIssue.tracingEnabledKeyPlaceholder ∧
    langsmithCheck langsmithTracingOnlyEnv langsmithNoExamples =
      some LangsmithIssue.tracingEnabledKeyNotSet := by
  refine ⟨by decide, by decide, by decide, by decide⟩

/-- C2 (amended): with `T` the lowercased process value of `LANGSMITH_TRACING`,
`K` the process value of `LANGSMITH_API_KEY` (empty if absent) and `E` the
example value of `LANGSMITH_API_KEY` (empty if absent): if `T = "true"` and `K`
is empty the `keyNotSet` issue is reported; if `T = "true"`, `K` is non-empty
and `K = E` the `placeholder` issue is reported; if `T = "true"`, `K` is
non-empty and `K ≠ E` no issue is reported; if `T ≠ "true"`, `K` is non-empty
and `K ≠ E` the `keySetTracingDisabled` issue is reported. -/
theorem langsmith_cross_field_rule (environ all_example_values : String → Option String) :
    (strLower ((environ "LANGSMITH_TRACING").getD "") = "true" →
      ((environ "LANGSMITH_API_KEY").getD "" = "" →
        langsmithCheck environ all_example_values =
          some LangsmithIssue.tracingEnabledKeyNotSet) ∧
      ((environ "LANGSMITH_API_KEY").getD "" ≠ "" →
        (environ "LANGSMITH_API_KEY").getD "" =
          (all_example_values "LANGSMITH_API_KEY").getD "" →
        langsmithCheck environ all_example_values =
          some LangsmithIssue.tracingEnabledKeyPlaceholder) ∧
      ((environ "LANGSMITH_API_KEY").getD "" ≠ "" →
        (environ "LANGSMITH_API_KEY").getD "" ≠
          (all_example_values "LANGSMITH_API_KEY").getD "" →
        langsmithCheck environ all_example_values = none)) ∧
    (strLower ((environ "LANGSMITH_TRACING").getD "") ≠ "true" →
      (environ "LANGSMITH_API_KEY").getD "" ≠ "" →
      (environ "LANGSMITH_API_KEY").getD "" ≠
        (all_example_values "LANGSMITH_API_KEY").getD "" →
      langsmithCheck environ all_example_values =
        some LangsmithIssue.keySetTracingDisabled) := by
  constructor
  · intro ht
    refine ⟨fun hk => ?_, fun hk he => ?_, fun hk he => ?_⟩
    · simp only [langsmithCheck]
      rw [if_pos ht, if_pos hk]
    · simp only [langsmithCheck]
      rw [if_pos ht, if_neg hk, if_pos he]
    · simp only [langsmithCheck]
      rw [if_pos ht, if_neg hk, if_neg he]
  · intro ht hk he
    simp only [langsmithCheck]
    rw [if_neg ht, if_pos ⟨hk, he⟩]

theorem langsmith_cross_field_rule_witness :
    langsmithCheck langsmithFullEnv langsmithExampleVals = none ∧
    langsmithCheck langsmithKeyOnlyEnv langsmithExampleVals =
      some LangsmithIssue.keySetTracingDisabled :=
  ⟨((langsmith_cross_field_rule langsmithFullEnv langsmithExampleVals).1
      (by decide)).2.2 (by decide) (by decide),
   (langsmith_cross_field_rule langsmithKeyOnlyEnv langsmithExampleVals).2
      (by decide) (by decide) (by decide)⟩

theorem updateMap_self (m : String → Option String) (k v : String) :
    updateMap m k v k = some v := by
  simp [updateMap]

/-- C6: the `required` status of the manifest parse is a sticky per-section
state.  A comment line (trimmed content starting with `#`) containing
`required` case-insensitively raises the flag, any other comment line lowers
it; a `KEY=value` line met while the flag is up is recorded in both
`required_keys` and `all_example_values`, while one met with the flag down is
recorded only in `all_example_values`; `KEY=value` lines leave the flag
unchanged. -/
theorem manifest_required_section_rules (s : ManifestState) (line : String) :
    (strStartsWith (strTrim line) "#" = true →
      (strContains (strLower (strTrim line)) "required" = true →
        manifestStep s line = { s with is_required_section := true }) ∧
      (strContains (strLower (strTrim line)) "required" = false →
        manifestStep s line = { s with is_required_section := false })) ∧
    (strStartsWith (strTrim line) "#" = false →
      strContains (strTrim line) "=" = true →
      (s.is_required_section = true →
        manifestStep s line = { s with
          all_example_values :=
            updateMap s.all_example_values (lineKey (strTrim line)) (lineValue (strTrim line)),
          required_keys :=
            updateMap s.required_keys (lineKey (strTrim line)) (lineValue (strTrim line)) } ∧
        (manifestStep s line).required_keys (lineKey (strTrim line)) =
          some (lineValue (strTrim line)) ∧
        (manifestStep s line).all_example_values (lineKey (strTrim line)) =
          some (lineValue (strTrim line)) ∧
        (manifestStep s line).is_required_section = s.is_required_section) ∧
      (s.is_required_section = false →
        manifestStep s line = { s with
          all_example_values :=
            updateMap s.all_example_values (lineKey (strTrim line)) (lineValue (strTrim line)) } ∧
        (manifestStep s line).required_keys = s.required_keys ∧
        (manifestStep s line).is_required_section = s.is_required_section)) := by
  constructor
  · intro hc
    constructor
    · intro hr
      simp only [manifestStep]
      rw [if_pos hc, if_pos hr]
    · intro hr
      simp only [manifestStep]
      rw [if_pos hc, if_neg (by simp [hr])]
  · intro hc he
    have hstep : manifestStep s line = { s with
        all_example_values :=
          updateMap s.all_example_values (lineKey (strTrim line)) (lineValue (strTrim line)),
        required_keys :=
          if s.is_required_section = true then
            updateMap s.required_keys (lineKey (strTrim line)) (lineValue (strTrim line))
          else s.required_keys } := by
      simp only [manifestStep]
      rw [if_neg (by simp [hc]), if_pos he]
    constructor
    · intro hflag
      rw [hstep, if_pos hflag]
      exact ⟨rfl, updateMap_self _ _ _, updateMap_self _ _ _, rfl⟩
    · intro hflag
      rw [hstep, if_neg (by simp [hflag])]
      exact ⟨rfl, rfl, rfl⟩

theorem manifest_required_section_rules_witness :
    manifestStep mState0 "# Required keys" = { mState0 with is_required_section := true } ∧
    (manifestStep mState1 "OPENAI_API_KEY=sk-example").required_keys
        (lineKey (strTrim "OPENAI_API_KEY=sk-example")) =
      some (lineValue (strTrim "OPENAI_API_KEY=sk-example")) ∧
    (manifestStep mState0 "OPENAI_API_KEY=sk-example").required_keys = mState0.required_keys :=
  ⟨((manifest_required_section_rules mState0 "# Required keys").1 (by decide)).1 (by decide),
   (((manifest_required_section_rules mState1 "OPENAI_API_KEY=sk-example").2
      (by decide) (by decide)).1 rfl).2.1,
   (((manifest_required_section_rules mState0 "OPENAI_API_KEY=sk-example").2
      (by decide) (by decide)).2 rfl).2.1⟩

/-- C1: for a key `K` that the manifest declares required (and that the parsed
example file contains): if `K` is absent from the process environment, the
reconciliation loop displays `<not set>` and reports `missingRequired` for `K`;
if `K` is present and its value equals the manifest's example value, it reports
`stillPlaceholder` for `K`; if `K` is present with a different value, it
reports no issue for `K`. -/
theorem reconcile_required_key (parsedKeys : List String)
    (environ required_keys all_example_values : String → Option String) (K : String)
    (hmem : K ∈ parsedKeys) (hreq : required_keys K ≠ none) :
    (environ K = none →
      reconEntry environ required_keys all_example_values K =
        ⟨"<not set>", some ReconIssue.missingRequired⟩ ∧
      (K, ReconIssue.missingRequired) ∈
        reconIssues parsedKeys environ required_keys all_example_values) ∧
    (∀ v, environ K = some v → all_example_values K = some v →
      (reconEntry environ required_keys all_example_values K).issue =
        some ReconIssue.stillPlaceholder ∧
      (K, ReconIssue.stillPlaceholder) ∈
        reconIssues parsedKeys environ required_keys all_example_values) ∧
    (∀ v, environ K = some v → all_example_values K ≠ some v →
      (reconEntry environ required_keys all_example_values K).issue = none ∧
      ∀ i, (K, i) ∉ reconIssues parsedKeys environ required_keys all_example_values) := by
  refine ⟨?_, ?_, ?_⟩
  · intro habs
    have hent : reconEntry environ required_keys all_example_values K =
        ⟨"<not set>", some ReconIssue.missingRequired⟩ := by
      simp only [reconEntry, habs]
      rw [if_pos hreq]
    refine ⟨hent, List.mem_filterMap.mpr ⟨K, hmem, ?_⟩⟩
    rw [hent]
  · intro v hv hall
    have hent : (reconEntry environ required_keys all_example_values K).issue =
        some ReconIssue.stillPlaceholder := by
      simp only [reconEntry, hv]
      rw [if_pos ⟨hreq, hall⟩]
    refine ⟨hent, List.mem_filterMap.mpr ⟨K, hmem, ?_⟩⟩
    rw [hent]
  · intro v hv hall
    have hent : (reconEntry environ required_keys all_example_values K).issue = none := by
      simp only [reconEntry, hv]
      rw [if_neg (fun h => hall h.2)]
    refine ⟨hent, ?_⟩
    intro i hin
    rcases List.mem_filterMap.mp hin with ⟨k, hk, hf⟩
    rcases hj : (reconEntry environ required_keys all_example_values k).issue with _ | j
    · rw [hj] at hf
      exact absurd hf (by simp)
    · rw [hj] at hf
      have hpair := Option.some.inj hf
      have hkK : k = K := congrArg Prod.fst hpair
      rw [hkK] at hj
      rw [hent] at hj
      exact Option.noConfusion hj

theorem reconcile_required_key_witness :
    reconEntry emptyEnvMap reqOpenAI reqOpenAI "OPENAI_API_KEY" =
      ⟨"<not set>", some ReconIssue.missingRequired⟩ ∧
    ("OPENAI_API_KEY", ReconIssue.missingRequired) ∈
      reconIssues ["OPENAI_API_KEY"] emptyEnvMap reqOpenAI reqOpenAI :=
  (reconcile_required_key ["OPENAI_API_KEY"] emptyEnvMap reqOpenAI reqOpenAI
      "OPENAI_API_KEY" (by decide) (by decide)).1 rfl

theorem listIsSubstr_of_findTagsAux (n : Nat) :
    ∀ cs : List Char, findTagsAux n cs ≠ [] → listIsSubstr "python".data cs = true := by
  induction n with
  | zero => intro cs h; exact absurd rfl h
  | succ n ih =>
    intro cs h
    match cs with
    | [] => exact absurd rfl h
    | c :: cs2 =>
      simp only [findTagsAux] at h
      rcases hm : matchPyTag (c :: cs2) with _ | p
      · rw [hm] at h
        have := ih cs2 h
        simp only [listIsSubstr, Bool.or_eq_true]
        exact Or.inr this
      · have hpre : List.isPrefixOf "python".data (c :: cs2) = true := by
          by_contra hnp
          rw [matchPyTag, if_neg (fun hp => hnp hp)] at hm
          exact Option.noConfusion hm
        simp only [listIsSubstr, Bool.or_eq_true]
        exact Or.inl hpre

/-- C4: a dependency string that fails requirement parsing is recorded with the
raw string as name, specifier `(unparsed)` and status `❌ Missing` (the lookup
of the raw string raises `PackageNotFoundError`, modelled by `metaVer dep =
none`), and the audit still produces one record per declared dependency. -/
theorem audit_unparsed_dependency (parseReq : String → Option (String × Option String))
    (metaVer metaPath : String → Option String) (specSat : String → String → Bool)
    (expectedPy : String) (deps : List String) (dep : String)
    (hparse : parseReq dep = none) (hver : metaVer dep = none) (hmem : dep ∈ deps) :
    auditDep parseReq metaVer metaPath specSat expectedPy dep =
      ⟨dep, "(unparsed)", "-", "-", "❌ Missing"⟩ ∧
    DepRecord.mk dep "(unparsed)" "-" "-" "❌ Missing" ∈
      auditPkgs parseReq metaVer metaPath specSat expectedPy deps ∧
    (auditPkgs parseReq metaVer metaPath specSat expectedPy deps).length = deps.length := by
  have h1 : auditDep parseReq metaVer metaPath specSat expectedPy dep =
      ⟨dep, "(unparsed)", "-", "-", "❌ Missing"⟩ := by
    simp only [auditDep]
    rw [hparse]
    dsimp only
    rw [hver]
  refine ⟨h1, ?_, ?_⟩
  · exact List.mem_map.mpr ⟨dep, hmem, h1⟩
  · simp [auditPkgs]

theorem audit_unparsed_dependency_witness :
    auditDep noParse noMeta noMeta anySat "python3.12" "bad requirement spec!!" =
      ⟨"bad requirement spec!!", "(unparsed)", "-", "-", "❌ Missing"⟩ ∧
    DepRecord.mk "bad requirement spec!!" "(unparsed)" "-" "-" "❌ Missing" ∈
      auditPkgs noParse noMeta noMeta anySat "python3.12" ["bad requirement spec!!"] ∧
    (auditPkgs noParse noMeta noMeta anySat "python3.12" ["bad requirement spec!!"]).length =
      ["bad requirement spec!!"].length :=
  audit_unparsed_dependency noParse noMeta noMeta anySat "python3.12"
    ["bad requirement spec!!"] "bad requirement spec!!" rfl rfl (by decide)

/-- C7: for an installed package whose resolved install path contains at least
one `python<digits>.<digits>` tag, none of which is the running interpreter's
`python<major>.<minor>` tag, the status is `⚠️ Wrong Python version`, whatever
the declared version specifier and whatever the specifier-satisfaction test
says (the wrong-interpreter check takes priority and the specifier is never
tested). -/
theorem audit_wrong_interpreter (parseReq : String → Option (String × Option String))
    (metaVer metaPath : String → Option String) (expectedPy dep name ver path : String)
    (spOpt : Option String)
    (hparse : parseReq dep = some (name, spOpt))
    (hver : metaVer name = some ver)
    (hpath : metaPath name = some path)
    (htags : pyTags (strLower path) ≠ [])
    (hmiss : strLower expectedPy ∉ pyTags (strLower path)) :
    ∀ specSat : String → String → Bool,
      (auditDep parseReq metaVer metaPath specSat expectedPy dep).status =
        "⚠️ Wrong Python version" := by
  intro specSat
  have hunk : path ≠ "(unknown)" := by
    intro hp
    rw [hp] at htags
    exact htags (by decide)
  have hcont : strContains (strLower path) "python" = true := by
    have h0 : findTagsAux (strLower path).length (strLower path).data ≠ [] := by
      intro h0
      apply htags
      simp [pyTags, h0]
    exact listIsSubstr_of_findTagsAux _ _ h0
  simp only [auditDep]
  rw [hparse]
  dsimp only
  rw [hver]
  dsimp only
  rw [hpath]
  dsimp only
  rw [if_pos ⟨hcont, hunk, htags, hmiss⟩]

theorem audit_wrong_interpreter_witness :
    (auditDep reqParse reqVer reqPath anySat "python3.12" "requests>=2.0").status =
      "⚠️ Wrong Python version" :=
  audit_wrong_interpreter reqParse reqVer reqPath "python3.12" "requests>=2.0"
    "requests" "2.5" "/venv/lib/python3.11/site-packages" (some ">=2.0")
    rfl rfl rfl (by decide) (by decide) anySat

end EnvUtils
